import Mathlib

/-!
Shallow embedding of alacritty's configuration subsystem (src/config.rs).

The source locates, reads and deserializes one YAML configuration file.
We embed:
  * the data model (Config, Dpi, Font, FontOffset) with its serde-derived
    deserialization semantics (field-level requiredness, section-level
    defaults via the serde default attribute),
  * the error enum Error with its From conversions, cause and Display,
  * Config.load, Config.load_from and Config.read_file over an explicit
    environment/filesystem model, plus traced variants that record every
    filesystem operation performed.

Floating-point config fields (f32) never participate in arithmetic in the
source: they are stored and returned verbatim, so we embed them as Rat.
The YAML text parser (serde_yaml) is external to the repository; it is
embedded as an oracle mapping text to a raw document tree or a syntax
error, while the shape requirements (which fields are required, which
sections default) are taken from the struct definitions in the source.
-/

namespace Alacritty

/-- Paths are component lists; PathBuf.push appends one component. -/
abbrev Path := List String

/-- Kinds of io::Error relevant to the source (io::ErrorKind). -/
inductive IOErrorKind where
  | notFound
  | invalidData
  | permissionDenied
  | other (n : Nat)
deriving DecidableEq

/-- Model of std::io::Error: a kind plus its Display message. -/
structure IOError where
  kind : IOErrorKind
  msg : String
deriving DecidableEq

/-- Model of std::env::VarError (HOME lookup failure). -/
inductive VarError where
  | NotPresent
  | NotUnicode (raw : String)
deriving DecidableEq

/-- Display for env::VarError, as in the Rust standard library. -/
def VarError.display : VarError → String
  | .NotPresent => "environment variable not found"
  | .NotUnicode raw => "environment variable was not valid unicode: " ++ raw

/-- Model of serde_yaml::Error: its Display message. -/
structure YamlError where
  msg : String
deriving DecidableEq

/-- Display for serde_yaml::Error. -/
def YamlError.display (e : YamlError) : String := e.msg

/-- Display for io::Error. -/
def IOError.display (e : IOError) : String := e.msg

/-- Pixels per inch (struct Dpi, fields x y : f32). -/
structure Dpi where
  x : Rat
  y : Rat
deriving DecidableEq

/-- impl Default for Dpi: 96.0 / 96.0. -/
def Dpi.defaultValue : Dpi := { x := 96, y := 96 }

/-- Extra per-glyph spacing (struct FontOffset, fields x y : f32). -/
structure FontOffset where
  x : Rat
  y : Rat
deriving DecidableEq

/-- Font config (struct Font: family, style, size, offset). -/
structure Font where
  family : String
  style : String
  size : Rat
  offset : FontOffset
deriving DecidableEq

/-- Build target selecting which cfg-gated Default impl for Font applies. -/
inductive Platform where
  | linux
  | macos
deriving DecidableEq

/-- The cfg-gated impl Default for Font, one bundle per platform. -/
def Font.defaultValue : Platform → Font
  | .linux =>
    { family := "DejaVu Sans Mono", style := "Book", size := 11
      offset := { x := 2, y := -7 } }
  | .macos =>
    { family := "Menlo", style := "Regular", size := 11
      offset := { x := 0, y := 0 } }

/-- Top-level config (struct Config: dpi, font, render_timer). -/
structure Config where
  dpi : Dpi
  font : Font
  render_timer : Bool
deriving DecidableEq

/-- Accessor Config::font. -/
def Config.fontOf (c : Config) : Font := c.font

/-- Accessor Config::dpi. -/
def Config.dpiOf (c : Config) : Dpi := c.dpi

/-- Accessor Config::render_timer. -/
def Config.renderTimerOf (c : Config) : Bool := c.render_timer

/-- Accessor Dpi::x. -/
def Dpi.xOf (d : Dpi) : Rat := d.x

/-- Accessor Dpi::y. -/
def Dpi.yOf (d : Dpi) : Rat := d.y

/-- Accessor FontOffset::x. -/
def FontOffset.xOf (o : FontOffset) : Rat := o.x

/-- Accessor FontOffset::y. -/
def FontOffset.yOf (o : FontOffset) : Rat := o.y

/-- Accessor Font::family. -/
def Font.familyOf (f : Font) : String := f.family

/-- Accessor Font::style. -/
def Font.styleOf (f : Font) : String := f.style

/-- Accessor Font::size. -/
def Font.sizeOf (f : Font) : Rat := f.size

/-- Accessor Font::offset. -/
def Font.offsetOf (f : Font) : FontOffset := f.offset

/-- enum Error: the unified config-loading error. -/
inductive Error where
  | NotFound
  | ReadingEnvHome (e : VarError)
  | Io (e : IOError)
  | Yaml (e : YamlError)
deriving DecidableEq

/-- The payload returned by Error::cause (a reference to the wrapped error). -/
inductive Cause where
  | env (e : VarError)
  | io (e : IOError)
  | yaml (e : YamlError)
deriving DecidableEq

/-- impl std::error::Error for Error, fn cause. -/
def Error.cause : Error → Option Cause
  | .NotFound => none
  | .ReadingEnvHome e => some (.env e)
  | .Io e => some (.io e)
  | .Yaml e => some (.yaml e)

/-- impl Display for Error. -/
def Error.display : Error → String
  | .NotFound => "could not locate config file"
  | .ReadingEnvHome e =>
    "could not read $HOME environment variable: " ++ e.display
  | .Io e => "error reading config file: " ++ e.display
  | .Yaml e => "problem with config: " ++ e.display

/-- impl From env::VarError for Error. -/
def Error.fromVar (e : VarError) : Error := Error.ReadingEnvHome e

/-- impl From io::Error for Error: a NotFound-kind io error is converted
to Error::NotFound, every other kind is wrapped as Error::Io. -/
def Error.fromIo (e : IOError) : Error :=
  if e.kind = IOErrorKind.notFound then Error.NotFound else Error.Io e

/-- impl From serde_yaml::Error for Error. -/
def Error.fromYaml (e : YamlError) : Error := Error.Yaml e

/-! ## Deserialization semantics

serde_yaml::from_str is split into a text-level parse oracle (external to
the repository) producing a raw document tree, and the shape requirements
dictated by the derive attributes on the structs in the source:
Config uses the serde default attribute on all three fields, so an absent
section is replaced wholesale by its Default impl; Dpi, Font and
FontOffset have no per-field defaults, so inside a present section every
field is required. -/

/-- Raw parsed form of a dpi section: each scalar possibly absent. -/
structure RawDpi where
  x : Option Rat
  y : Option Rat
deriving DecidableEq

/-- Raw parsed form of an offset subsection. -/
structure RawFontOffset where
  x : Option Rat
  y : Option Rat
deriving DecidableEq

/-- Raw parsed form of a font section. -/
structure RawFont where
  family : Option String
  style : Option String
  size : Option Rat
  offset : Option RawFontOffset
deriving DecidableEq

/-- Raw parsed document: each of the three top-level sections
possibly absent. -/
structure RawDoc where
  dpi : Option RawDpi
  font : Option RawFont
  render_timer : Option Bool
deriving DecidableEq

/-- Strict deserialization of a present dpi section: both fields
required (struct Dpi derives Deserialize with no field defaults). -/
def RawDpi.deserialize (r : RawDpi) : Except YamlError Dpi :=
  match r.x with
  | none => .error { msg := "missing field x" }
  | some x =>
    match r.y with
    | none => .error { msg := "missing field y" }
    | some y => .ok { x := x, y := y }

/-- Strict deserialization of a present offset subsection: both fields
required. -/
def RawFontOffset.deserialize (r : RawFontOffset) :
    Except YamlError FontOffset :=
  match r.x with
  | none => .error { msg := "missing field x" }
  | some x =>
    match r.y with
    | none => .error { msg := "missing field y" }
    | some y => .ok { x := x, y := y }

/-- Strict deserialization of a present font section: all four fields
required (struct Font derives Deserialize with no field defaults). -/
def RawFont.deserialize (rf : RawFont) : Except YamlError Font :=
  match rf.family with
  | none => .error { msg := "missing field family" }
  | some fam =>
    match rf.style with
    | none => .error { msg := "missing field style" }
    | some st =>
      match rf.size with
      | none => .error { msg := "missing field size" }
      | some sz =>
        match rf.offset with
        | none => .error { msg := "missing field offset" }
        | some off =>
          match off.deserialize with
          | .error e => .error e
          | .ok o =>
            .ok { family := fam, style := st, size := sz, offset := o }

/-- Resolution of the dpi field of struct Config: the serde default
attribute substitutes the whole Default impl when the section is absent,
and parses strictly when it is present. -/
def RawDoc.dpiValue (d : RawDoc) : Except YamlError Dpi :=
  match d.dpi with
  | none => .ok Dpi.defaultValue
  | some r => r.deserialize

/-- Resolution of the font field of struct Config, analogously. -/
def RawDoc.fontValue (plat : Platform) (d : RawDoc) :
    Except YamlError Font :=
  match d.font with
  | none => .ok (Font.defaultValue plat)
  | some r => r.deserialize

/-- Deserialization of the whole document into Config: each absent
section is replaced by its Default impl (serde default attribute on all
three fields of struct Config); a present section is parsed strictly;
an absent render_timer defaults to false (Default for bool). -/
def Config.deserialize (plat : Platform) (d : RawDoc) :
    Except YamlError Config :=
  match d.dpiValue with
  | .error e => .error e
  | .ok dpi =>
    match d.fontValue plat with
    | .error e => .error e
    | .ok font =>
      .ok { dpi := dpi, font := font
            render_timer := d.render_timer.getD false }

/-! ## Filesystem and environment model -/

/-- The decoded byte content of a present file: either valid UTF-8 text,
or bytes that fail Read::read_to_string with an InvalidData io error. -/
inductive FileBytes where
  | valid (s : String)
  | invalid (msg : String)
deriving DecidableEq

/-- The state of one path in the filesystem: no entry (fs::File::open
fails with a NotFound-kind io error), an open failure of another kind
(permissions and the like), or a present, openable file. -/
inductive FsEntry where
  | absent
  | openFail (e : IOError)
  | present (b : FileBytes)
deriving DecidableEq

/-- A filesystem: the entry found at each path. -/
abbrev FS := Path → FsEntry

/-- Well-formedness of the OS model: an open failure on an existing
entry never carries the NotFound kind (the OS reports NotFound exactly
when the entry is absent). -/
def FS.wf (fs : FS) : Prop :=
  ∀ p, ∀ e : IOError, fs p = .openFail e → e.kind ≠ IOErrorKind.notFound

/-- The text-level YAML parse oracle (serde_yaml, external to the
repository): maps file text to a raw document tree or a syntax error. -/
abbrev ParseOracle := String → Except YamlError RawDoc

/-- A recorded filesystem operation; the loader only ever opens files
for reading, but the type also has a write constructor so that
read-onlyness is a real statement. -/
inductive FsOp where
  | read (p : Path)
  | write (p : Path)
deriving DecidableEq

/-- Config::read_file: open the file and read it to a String; the
question-mark operator converts any io::Error through From, so a
missing file surfaces as Error::NotFound here already. -/
def Config.read_file (fs : FS) (p : Path) : Except Error String :=
  match fs p with
  | .absent => .error (Error.fromIo { kind := .notFound
                                      msg := "entity not found" })
  | .openFail e => .error (Error.fromIo e)
  | .present (.valid s) => .ok s
  | .present (.invalid m) =>
    .error (Error.fromIo { kind := .invalidData, msg := m })

/-- Config::load_from: read the file's text, then deserialize it; both
the syntax error and the shape error convert to Error::Yaml. -/
def Config.load_from (pa : ParseOracle) (plat : Platform) (fs : FS)
    (p : Path) : Except Error Config :=
  match Config.read_file fs p with
  | .error e => .error e
  | .ok raw =>
    match pa raw with
    | .error e => .error (Error.fromYaml e)
    | .ok doc =>
      match Config.deserialize plat doc with
      | .error e => .error (Error.fromYaml e)
      | .ok c => .ok c

/-- The primary candidate path: home joined with .config then
alacritty.yml. -/
def primaryPath (home : String) : Path := [home, ".config", "alacritty.yml"]

/-- The fallback candidate path: home joined with .alacritty.yml. -/
def fallbackPath (home : String) : Path := [home, ".alacritty.yml"]

/-- Config::load: read HOME, build the two candidate paths, try the
primary; on Error::NotFound try the fallback and return its outcome;
on any other error return it directly. -/
def Config.load (env : Except VarError String) (pa : ParseOracle)
    (plat : Platform) (fs : FS) : Except Error Config :=
  match env with
  | .error e => .error (Error.fromVar e)
  | .ok home =>
    match Config.load_from pa plat fs (primaryPath home) with
    | .ok c => .ok c
    | .error e =>
      match e with
      | Error.NotFound => Config.load_from pa plat fs (fallbackPath home)
      | _ => .error e

/-! ## Traced variants: the same functions, also returning the list of
filesystem operations performed, in order. -/

/-- Traced Config::read_file: one open-for-read of the given path. -/
def Config.read_file_traced (fs : FS) (p : Path) :
    Except Error String × List FsOp :=
  (Config.read_file fs p, [FsOp.read p])

/-- Traced Config::load_from. -/
def Config.load_from_traced (pa : ParseOracle) (plat : Platform) (fs : FS)
    (p : Path) : Except Error Config × List FsOp :=
  (Config.load_from pa plat fs p, (Config.read_file_traced fs p).2)

/-- Traced Config::load. -/
def Config.load_traced (env : Except VarError String) (pa : ParseOracle)
    (plat : Platform) (fs : FS) : Except Error Config × List FsOp :=
  match env with
  | .error e => (.error (Error.fromVar e), [])
  | .ok home =>
    let first := Config.load_from_traced pa plat fs (primaryPath home)
    match first.1 with
    | .ok c => (.ok c, first.2)
    | .error e =>
      match e with
      | Error.NotFound =>
        let second := Config.load_from_traced pa plat fs (fallbackPath home)
        (second.1, first.2 ++ second.2)
      | _ => (.error e, first.2)

/-- Replaying a trace against a filesystem: reads leave it unchanged,
writes would update the written path (the loader never emits one). -/
def applyOps (fs : FS) : List FsOp → FS
  | [] => fs
  | FsOp.read _ :: rest => applyOps fs rest
  | FsOp.write p :: rest =>
    applyOps (fun q => if q = p then FsEntry.present (.valid "") else fs q)
      rest

/-- Whether a filesystem operation is a read. -/
def FsOp.isRead : FsOp → Bool
  | .read _ => true
  | .write _ => false

/-- A present font section lacks at least one of its required fields
(family, style, size, offset, or a coordinate inside offset). -/
def RawFont.incomplete (rf : RawFont) : Prop :=
  rf.family = none ∨ rf.style = none ∨ rf.size = none ∨ rf.offset = none ∨
    ∃ ro : RawFontOffset, rf.offset = some ro ∧ (ro.x = none ∨ ro.y = none)

/-! ## Shared lemmas -/

/-- Decidable equality for Except values over decidable components. -/
instance instDecEqExcept {ε α : Type} [DecidableEq ε] [DecidableEq α] :
    DecidableEq (Except ε α) := fun a b =>
  match a, b with
  | .ok x, .ok y =>
    if h : x = y then .isTrue (by rw [h]) else .isFalse (by simp [h])
  | .error x, .error y =>
    if h : x = y then .isTrue (by rw [h]) else .isFalse (by simp [h])
  | .ok _, .error _ => .isFalse (by simp)
  | .error _, .ok _ => .isFalse (by simp)

/-- Config::load_from yields Error::NotFound exactly on an absent file,
provided open failures at that path never carry the NotFound kind
(the OS reports a NotFound-kind io error exactly for absent entries). -/
theorem load_from_notFound_iff (pa : ParseOracle) (plat : Platform)
    (fs : FS) (p : Path)
    (h : ∀ e : IOError, fs p = .openFail e → e.kind ≠ IOErrorKind.notFound) :
    Config.load_from pa plat fs p = .error Error.NotFound ↔
      fs p = .absent := by
  cases hfs : fs p with
  | absent =>
    simp [Config.load_from, Config.read_file, hfs, Error.fromIo]
  | openFail e =>
    have hk := h e hfs
    simp [Config.load_from, Config.read_file, hfs, Error.fromIo, hk]
  | present b =>
    cases b with
    | valid s =>
      simp only [Config.load_from, Config.read_file, hfs]
      cases hpa : pa s with
      | error e => simp [hpa, Error.fromYaml]
      | ok doc =>
        cases hdes : Config.deserialize plat doc with
        | error e => simp [hpa, hdes, Error.fromYaml]
        | ok c => simp [hpa, hdes]
    | invalid m =>
      simp [Config.load_from, Config.read_file, hfs, Error.fromIo]

/-- The result component of the traced loader agrees with Config::load. -/
theorem load_traced_fst (env : Except VarError String) (pa : ParseOracle)
    (plat : Platform) (fs : FS) :
    (Config.load_traced env pa plat fs).1 = Config.load env pa plat fs := by
  cases env with
  | error e => rfl
  | ok home =>
    cases h : Config.load_from pa plat fs (primaryPath home) with
    | ok c =>
      simp [Config.load_traced, Config.load_from_traced,
        Config.read_file_traced, Config.load, h]
    | error e =>
      cases e <;>
        simp [Config.load_traced, Config.load_from_traced,
          Config.read_file_traced, Config.load, h]

/-- The trace of Config::load: always an open of the primary path, then
an open of the fallback path exactly when the primary attempt failed
with Error::NotFound. -/
theorem load_traced_snd (home : String) (pa : ParseOracle)
    (plat : Platform) (fs : FS) :
    (Config.load_traced (.ok home) pa plat fs).2 =
      if Config.load_from pa plat fs (primaryPath home) =
          .error Error.NotFound
      then [FsOp.read (primaryPath home), FsOp.read (fallbackPath home)]
      else [FsOp.read (primaryPath home)] := by
  cases h : Config.load_from pa plat fs (primaryPath home) with
  | ok c =>
    simp [Config.load_traced, Config.load_from_traced,
      Config.read_file_traced, h]
  | error e =>
    cases e <;>
      simp [Config.load_traced, Config.load_from_traced,
        Config.read_file_traced, h]

/-- An incomplete present font section always fails strict
deserialization. -/
theorem rawFont_incomplete_err (rf : RawFont) (h : rf.incomplete) :
    ∃ e, rf.deserialize = .error e := by
  cases hfam : rf.family with
  | none =>
    exact ⟨{ msg := "missing field family" },
      by simp [RawFont.deserialize, hfam]⟩
  | some fam =>
  cases hst : rf.style with
  | none =>
    exact ⟨{ msg := "missing field style" },
      by simp [RawFont.deserialize, hfam, hst]⟩
  | some st =>
  cases hsz : rf.size with
  | none =>
    exact ⟨{ msg := "missing field size" },
      by simp [RawFont.deserialize, hfam, hst, hsz]⟩
  | some sz =>
  cases hoff : rf.offset with
  | none =>
    exact ⟨{ msg := "missing field offset" },
      by simp [RawFont.deserialize, hfam, hst, hsz, hoff]⟩
  | some off =>
    rcases h with h | h | h | h | ⟨ro, hro, hxy⟩
    · exact absurd hfam (h ▸ fun hc => Option.noConfusion hc)
    · exact absurd hst (h ▸ fun hc => Option.noConfusion hc)
    · exact absurd hsz (h ▸ fun hc => Option.noConfusion hc)
    · exact absurd hoff (h ▸ fun hc => Option.noConfusion hc)
    · have hro' : ro = off := Option.some.inj (hro.symm.trans hoff)
      subst hro'
      rcases hxy with hx | hy
      · exact ⟨{ msg := "missing field x" }, by
          simp [RawFont.deserialize, hfam, hst, hsz, hoff,
            RawFontOffset.deserialize, hx]⟩
      · cases hx : ro.x with
        | none =>
          exact ⟨{ msg := "missing field x" }, by
            simp [RawFont.deserialize, hfam, hst, hsz, hoff,
              RawFontOffset.deserialize, hx]⟩
        | some x =>
          exact ⟨{ msg := "missing field y" }, by
            simp [RawFont.deserialize, hfam, hst, hsz, hoff,
              RawFontOffset.deserialize, hx, hy]⟩

/-! ## Concrete fixtures used to instantiate the theorems -/

/-- A fully specified document. -/
def docComplete : RawDoc :=
  { dpi := some { x := some 100, y := some 90 }
    font := some { family := some "Fira Code", style := some "Bold"
                   size := some 12
                   offset := some { x := some 1, y := some 2 } }
    render_timer := some true }

/-- The empty document: all three sections absent. -/
def docEmpty : RawDoc := { dpi := none, font := none, render_timer := none }

/-- A document whose font section lacks the size field. -/
def docNoSize : RawDoc :=
  { dpi := none
    font := some { family := some "Fira Code", style := some "Bold"
                   size := none
                   offset := some { x := some 1, y := some 2 } }
    render_timer := none }

/-- A concrete parse oracle recognizing three marker texts and failing
on everything else with a syntax error. -/
def parseFix : ParseOracle := fun s =>
  if s = "empty" then .ok docEmpty
  else if s = "complete" then .ok docComplete
  else if s = "nosize" then .ok docNoSize
  else .error { msg := "syntax" }

/-- Filesystem: primary absent, fallback holds a complete document. -/
def fsA : FS := fun p =>
  if p = fallbackPath "h" then .present (.valid "complete") else .absent

/-- Filesystem: primary holds unparseable text, fallback a complete
document. -/
def fsBadPrimary : FS := fun p =>
  if p = primaryPath "h" then .present (.valid "garbage")
  else if p = fallbackPath "h" then .present (.valid "complete")
  else .absent

/-- Filesystem with no entries at all. -/
def fsNone : FS := fun _ => .absent

/-- Filesystem: primary holds the empty document. -/
def fsEmptyDoc : FS := fun p =>
  if p = primaryPath "h" then .present (.valid "empty") else .absent

/-- Filesystem: primary holds a complete document. -/
def fsComplete : FS := fun p =>
  if p = primaryPath "h" then .present (.valid "complete") else .absent

/-- Filesystem: primary holds a document with an incomplete font
section. -/
def fsNoSize : FS := fun p =>
  if p = primaryPath "h" then .present (.valid "nosize") else .absent

/-- Filesystem: primary is present but not valid UTF-8. -/
def fsInvalid : FS := fun p =>
  if p = primaryPath "h" then .present (.invalid "stream did not contain valid UTF-8")
  else .absent

/-- fsA never reports an open failure, so it is well-formed. -/
theorem fsA_wf : FS.wf fsA := by
  intro p e h
  unfold fsA at h
  split at h
  · exact absurd h (by simp)
  · exact absurd h (by simp)

/-- fsNone never reports an open failure, so it is well-formed. -/
theorem fsNone_wf : FS.wf fsNone := by
  intro p e h
  exact absurd h (by simp [fsNone])

/-! ## Claims -/

/-- C1: when the primary attempt fails with NotFound, load attempts the
fallback path and returns that second attempt's outcome as its final
result; when the primary attempt fails with any other error, load
returns that error directly and the fallback path is never opened. -/
theorem c1_fallback_only_on_notFound (home : String) (pa : ParseOracle)
    (plat : Platform) (fs : FS) :
    (Config.load_from pa plat fs (primaryPath home) =
        .error Error.NotFound →
      Config.load (.ok home) pa plat fs =
        Config.load_from pa plat fs (fallbackPath home)) ∧
    (∀ e : Error, e ≠ Error.NotFound →
      Config.load_from pa plat fs (primaryPath home) = .error e →
      Config.load (.ok home) pa plat fs = .error e ∧
      (Config.load_traced (.ok home) pa plat fs).2 =
        [FsOp.read (primaryPath home)]) := by
  constructor
  · intro h
    simp [Config.load, h]
  · intro e hne h
    refine ⟨?_, ?_⟩
    · cases e with
      | NotFound => exact absurd rfl hne
      | ReadingEnvHome v => simp [Config.load, h]
      | Io e => simp [Config.load, h]
      | Yaml e => simp [Config.load, h]
    · rw [load_traced_snd, h,
        if_neg (fun hc => hne (Except.error.inj hc))]

/-- C1 witness: with the primary absent and the fallback complete, load
returns the fallback attempt's outcome; with an unparseable primary,
load returns the schema error and reads only the primary path. -/
theorem c1_witness :
    (Config.load (.ok "h") parseFix .linux fsA =
      Config.load_from parseFix .linux fsA (fallbackPath "h")) ∧
    (Config.load (.ok "h") parseFix .linux fsBadPrimary =
        .error (Error.Yaml { msg := "syntax" }) ∧
      (Config.load_traced (.ok "h") parseFix .linux fsBadPrimary).2 =
        [FsOp.read (primaryPath "h")]) :=
  ⟨(c1_fallback_only_on_notFound "h" parseFix .linux fsA).1 (by decide),
   (c1_fallback_only_on_notFound "h" parseFix .linux fsBadPrimary).2
     (Error.Yaml { msg := "syntax" }) (by decide) (by decide)⟩

/-- C2: load returns NotFound exactly when both candidate paths are
absent; the From conversion turns a NotFound-kind io error into
Error::NotFound and never converts any other kind to NotFound. -/
theorem c2_notFound_iff_both_absent (home : String) (pa : ParseOracle)
    (plat : Platform) (fs : FS) (hwf : FS.wf fs) :
    (Config.load (.ok home) pa plat fs = .error Error.NotFound ↔
      fs (primaryPath home) = .absent ∧
        fs (fallbackPath home) = .absent) ∧
    (∀ e : IOError, e.kind ≠ IOErrorKind.notFound →
      Error.fromIo e = Error.Io e) ∧
    (∀ e : IOError, e.kind = IOErrorKind.notFound →
      Error.fromIo e = Error.NotFound) := by
  refine ⟨?_, fun e hk => by simp [Error.fromIo, hk],
    fun e hk => by simp [Error.fromIo, hk]⟩
  have hp := load_from_notFound_iff pa plat fs (primaryPath home)
    (fun e he => hwf _ e he)
  have hq := load_from_notFound_iff pa plat fs (fallbackPath home)
    (fun e he => hwf _ e he)
  cases h : Config.load_from pa plat fs (primaryPath home) with
  | ok c =>
    rw [h] at hp
    have hnp : ¬ fs (primaryPath home) = FsEntry.absent := fun ha =>
      Except.noConfusion (hp.mpr ha)
    simp [Config.load, h, hnp]
  | error e =>
    rw [h] at hp
    cases e with
    | NotFound =>
      have hpa : fs (primaryPath home) = FsEntry.absent := hp.mp rfl
      simp [Config.load, h, hpa, hq]
    | ReadingEnvHome v =>
      have hnp : ¬ fs (primaryPath home) = FsEntry.absent := fun ha =>
        Error.noConfusion (Except.error.inj (hp.mpr ha))
      simp [Config.load, h, hnp]
    | Io e =>
      have hnp : ¬ fs (primaryPath home) = FsEntry.absent := fun ha =>
        Error.noConfusion (Except.error.inj (hp.mpr ha))
      simp [Config.load, h, hnp]
    | Yaml e =>
      have hnp : ¬ fs (primaryPath home) = FsEntry.absent := fun ha =>
        Error.noConfusion (Except.error.inj (hp.mpr ha))
      simp [Config.load, h, hnp]

/-- C2 witness: with both candidate paths absent, load fails with
exactly NotFound. -/
theorem c2_witness :
    Config.load (.ok "h") parseFix .linux fsNone = .error Error.NotFound :=
  ((c2_notFound_iff_both_absent "h" parseFix .linux fsNone fsNone_wf).1).mpr
    ⟨rfl, rfl⟩

/-- C5: an environment-lookup failure makes load fail with
ReadingEnvHome wrapping that failure; the trace is empty (no path is
probed) and the result does not depend on the filesystem at all. -/
theorem c5_env_failure_no_fs_access (e : VarError) (pa : ParseOracle)
    (plat : Platform) (fs fs' : FS) :
    Config.load (.error e) pa plat fs =
      .error (Error.ReadingEnvHome e) ∧
    (Config.load_traced (.error e) pa plat fs).2 = [] ∧
    Config.load (.error e) pa plat fs =
      Config.load (.error e) pa plat fs' :=
  ⟨rfl, rfl, rfl⟩

/-- C8: the three cause-wrapping kinds expose their wrapped cause and
format as a message naming the failure followed by the cause's own
message; NotFound has no cause and a fixed message. -/
theorem c8_error_cause_and_display :
    (∀ v : VarError, (Error.ReadingEnvHome v).cause = some (Cause.env v) ∧
      (Error.ReadingEnvHome v).display =
        "could not read $HOME environment variable: " ++ v.display) ∧
    (∀ e : IOError, (Error.Io e).cause = some (Cause.io e) ∧
      (Error.Io e).display = "error reading config file: " ++ e.display) ∧
    (∀ e : YamlError, (Error.Yaml e).cause = some (Cause.yaml e) ∧
      (Error.Yaml e).display = "problem with config: " ++ e.display) ∧
    Error.NotFound.cause = none ∧
    Error.NotFound.display = "could not locate config file" :=
  ⟨fun _ => ⟨rfl, rfl⟩, fun _ => ⟨rfl, rfl⟩, fun _ => ⟨rfl, rfl⟩, rfl, rfl⟩

/-- C3: loading a source file that parses to the empty document (all
three sections absent) succeeds with the platform default Font, the
default Dpi of 96.0 by 96.0, and render_timer false. -/
theorem c3_empty_doc_defaults (pa : ParseOracle) (plat : Platform)
    (fs : FS) (p : Path) (s : String)
    (hfs : fs p = .present (.valid s))
    (hpa : pa s = .ok { dpi := none, font := none, render_timer := none }) :
    Config.load_from pa plat fs p =
      .ok { dpi := Dpi.defaultValue, font := Font.defaultValue plat
            render_timer := false } ∧
    Dpi.defaultValue.xOf = 96 ∧ Dpi.defaultValue.yOf = 96 := by
  refine ⟨?_, rfl, rfl⟩
  simp [Config.load_from, Config.read_file, hfs, hpa, Config.deserialize,
    RawDoc.dpiValue, RawDoc.fontValue, Option.getD]

/-- C3 witness: a concrete filesystem whose primary file is the empty
document yields exactly the default configuration. -/
theorem c3_witness :
    Config.load_from parseFix .linux fsEmptyDoc (primaryPath "h") =
      .ok { dpi := Dpi.defaultValue, font := Font.defaultValue .linux
            render_timer := false } :=
  (c3_empty_doc_defaults parseFix .linux fsEmptyDoc (primaryPath "h")
    "empty" (by decide) (by decide)).1

/-- C4: a present font section lacking any required field makes
deserialization fail, and loading such a file fails with a Yaml
(schema) error; it never succeeds with a defaulted Font. -/
theorem c4_incomplete_font_schema_failure (plat : Platform)
    (doc : RawDoc) (rf : RawFont)
    (hf : doc.font = some rf) (hinc : rf.incomplete) :
    (∃ e, Config.deserialize plat doc = .error e) ∧
    (∀ (pa : ParseOracle) (fs : FS) (p : Path) (s : String),
      fs p = .present (.valid s) → pa s = .ok doc →
      ∃ e, Config.load_from pa plat fs p = .error (Error.Yaml e)) := by
  have hdes : ∃ e, Config.deserialize plat doc = .error e := by
    obtain ⟨e0, he0⟩ := rawFont_incomplete_err rf hinc
    cases hdv : doc.dpiValue with
    | error e => exact ⟨e, by simp [Config.deserialize, hdv]⟩
    | ok dpi =>
      exact ⟨e0,
        by simp [Config.deserialize, hdv, RawDoc.fontValue, hf, he0]⟩
  refine ⟨hdes, ?_⟩
  intro pa fs p s h1 h2
  obtain ⟨e, he⟩ := hdes
  exact ⟨e, by simp [Config.load_from, Config.read_file, h1, h2, he,
    Error.fromYaml]⟩

/-- C4 witness: a document whose font section lacks the size field
fails deserialization, and loading it fails with a Yaml error. -/
theorem c4_witness :
    (∃ e, Config.deserialize .linux docNoSize = .error e) ∧
    (∃ e, Config.load_from parseFix .linux fsNoSize (primaryPath "h") =
      .error (Error.Yaml e)) :=
  have h := c4_incomplete_font_schema_failure .linux docNoSize
    { family := some "Fira Code", style := some "Bold", size := none
      offset := some { x := some 1, y := some 2 } }
    rfl (Or.inr (Or.inr (Or.inl rfl)))
  ⟨h.1, h.2 parseFix fsNoSize (primaryPath "h") "nosize"
    (by decide) (by decide)⟩

/-- C6: loading a file that parses to a complete document yields a
Configuration whose accessors return exactly the supplied values. -/
theorem c6_complete_doc_exact_values (plat : Platform)
    (dx dy fx fy sz : Rat) (fam st : String) (b : Bool)
    (pa : ParseOracle) (fs : FS) (p : Path) (s : String)
    (hfs : fs p = .present (.valid s))
    (hpa : pa s = .ok
      { dpi := some { x := some dx, y := some dy }
        font := some { family := some fam, style := some st
                       size := some sz
                       offset := some { x := some fx, y := some fy } }
        render_timer := some b }) :
    ∃ c : Config, Config.load_from pa plat fs p = .ok c ∧
      c.dpiOf.xOf = dx ∧ c.dpiOf.yOf = dy ∧
      c.fontOf.familyOf = fam ∧ c.fontOf.styleOf = st ∧
      c.fontOf.sizeOf = sz ∧
      c.fontOf.offsetOf.xOf = fx ∧ c.fontOf.offsetOf.yOf = fy ∧
      c.renderTimerOf = b := by
  refine ⟨{ dpi := { x := dx, y := dy }
            font := { family := fam, style := st, size := sz
                      offset := { x := fx, y := fy } }
            render_timer := b },
    ?_, rfl, rfl, rfl, rfl, rfl, rfl, rfl, rfl⟩
  simp [Config.load_from, Config.read_file, hfs, hpa, Config.deserialize,
    RawDoc.dpiValue, RawDoc.fontValue, RawDpi.deserialize,
    RawFont.deserialize, RawFontOffset.deserialize, Option.getD]

/-- C6 witness: the concrete complete document round-trips all eight
supplied values through loading and the accessors. -/
theorem c6_witness :
    ∃ c : Config,
      Config.load_from parseFix .linux fsComplete (primaryPath "h") =
        .ok c ∧
      c.dpiOf.xOf = 100 ∧ c.dpiOf.yOf = 90 ∧
      c.fontOf.familyOf = "Fira Code" ∧ c.fontOf.styleOf = "Bold" ∧
      c.fontOf.sizeOf = 12 ∧
      c.fontOf.offsetOf.xOf = 1 ∧ c.fontOf.offsetOf.yOf = 2 ∧
      c.renderTimerOf = true :=
  c6_complete_doc_exact_values .linux 100 90 1 2 12 "Fira Code" "Bold"
    true parseFix fsComplete (primaryPath "h") "complete"
    (by decide) (by decide)

/-- C7: load probes exactly the two candidate paths, home joined with
.config/alacritty.yml first and home joined with .alacritty.yml second,
and the first existing file determines the outcome. -/
theorem c7_two_candidate_paths_in_order (home : String)
    (pa : ParseOracle) (plat : Platform) (fs : FS) (hwf : FS.wf fs) :
    primaryPath home = [home, ".config", "alacritty.yml"] ∧
    fallbackPath home = [home, ".alacritty.yml"] ∧
    ((Config.load_traced (.ok home) pa plat fs).2 =
        [FsOp.read (primaryPath home)] ∨
      (Config.load_traced (.ok home) pa plat fs).2 =
        [FsOp.read (primaryPath home), FsOp.read (fallbackPath home)]) ∧
    (fs (primaryPath home) ≠ .absent →
      Config.load (.ok home) pa plat fs =
        Config.load_from pa plat fs (primaryPath home)) ∧
    (fs (primaryPath home) = .absent →
      Config.load (.ok home) pa plat fs =
        Config.load_from pa plat fs (fallbackPath home)) := by
  have hp := load_from_notFound_iff pa plat fs (primaryPath home)
    (fun e he => hwf _ e he)
  refine ⟨rfl, rfl, ?_, ?_, ?_⟩
  · by_cases h : Config.load_from pa plat fs (primaryPath home) =
        .error Error.NotFound
    · right; rw [load_traced_snd, if_pos h]
    · left; rw [load_traced_snd, if_neg h]
  · intro hne
    cases h : Config.load_from pa plat fs (primaryPath home) with
    | ok c => simp [Config.load, h]
    | error e =>
      cases e with
      | NotFound => exact absurd (hp.mp h) hne
      | ReadingEnvHome v => simp [Config.load, h]
      | Io e2 => simp [Config.load, h]
      | Yaml e2 => simp [Config.load, h]
  · intro habs
    simp [Config.load, hp.mpr habs]

/-- C7 witness: on a filesystem with the primary absent, the trace is
one of the two allowed shapes and the fallback's contents determine the
outcome. -/
theorem c7_witness :
    ((Config.load_traced (.ok "h") parseFix .linux fsA).2 =
        [FsOp.read (primaryPath "h")] ∨
      (Config.load_traced (.ok "h") parseFix .linux fsA).2 =
        [FsOp.read (primaryPath "h"), FsOp.read (fallbackPath "h")]) ∧
    Config.load (.ok "h") parseFix .linux fsA =
      Config.load_from parseFix .linux fsA (fallbackPath "h") :=
  ⟨(c7_two_candidate_paths_in_order "h" parseFix .linux fsA fsA_wf).2.2.1,
   (c7_two_candidate_paths_in_order "h" parseFix .linux fsA
     fsA_wf).2.2.2.2 (by decide)⟩

/-- C9: a present file whose bytes are not valid UTF-8 makes load_from
fail with an Io error of the InvalidData kind, and the result does not
depend on the parse oracle (the deserializer is never invoked). -/
theorem c9_invalid_utf8_io_failure (plat : Platform) (fs : FS)
    (p : Path) (m : String) (hfs : fs p = .present (.invalid m)) :
    (∀ pa : ParseOracle, Config.load_from pa plat fs p =
      .error (Error.Io { kind := IOErrorKind.invalidData, msg := m })) ∧
    (∀ pa pa' : ParseOracle,
      Config.load_from pa plat fs p = Config.load_from pa' plat fs p) := by
  have h : ∀ pa : ParseOracle, Config.load_from pa plat fs p =
      .error (Error.Io { kind := IOErrorKind.invalidData, msg := m }) := by
    intro pa
    simp [Config.load_from, Config.read_file, hfs, Error.fromIo]
  exact ⟨h, fun pa pa' => (h pa).trans (h pa').symm⟩

/-- C9 witness: a concrete non-UTF-8 primary file fails with an Io
error of the InvalidData kind. -/
theorem c9_witness :
    Config.load_from parseFix .linux fsInvalid (primaryPath "h") =
      .error (Error.Io { kind := IOErrorKind.invalidData
                         msg := "stream did not contain valid UTF-8" }) :=
  (c9_invalid_utf8_io_failure .linux fsInvalid (primaryPath "h")
    "stream did not contain valid UTF-8" (by decide)).1 parseFix

/-- C10: load is read-only and deterministic: its trace consists of
reads only, replaying the trace leaves the filesystem unchanged, the
traced result agrees with load, and a second invocation on the
filesystem left behind by the first returns the same result. -/
theorem c10_deterministic_read_only (env : Except VarError String)
    (pa : ParseOracle) (plat : Platform) (fs : FS) :
    (Config.load_traced env pa plat fs).2.all FsOp.isRead = true ∧
    applyOps fs (Config.load_traced env pa plat fs).2 = fs ∧
    (Config.load_traced env pa plat fs).1 = Config.load env pa plat fs ∧
    Config.load env pa plat
        (applyOps fs (Config.load_traced env pa plat fs).2) =
      Config.load env pa plat fs := by
  have h2 : applyOps fs (Config.load_traced env pa plat fs).2 = fs := by
    cases env with
    | error e => rfl
    | ok home =>
      by_cases h : Config.load_from pa plat fs (primaryPath home) =
          .error Error.NotFound
      · rw [load_traced_snd, if_pos h]; rfl
      · rw [load_traced_snd, if_neg h]; rfl
  have h1 : (Config.load_traced env pa plat fs).2.all FsOp.isRead
      = true := by
    cases env with
    | error e => rfl
    | ok home =>
      by_cases h : Config.load_from pa plat fs (primaryPath home) =
          .error Error.NotFound
      · rw [load_traced_snd, if_pos h]; rfl
      · rw [load_traced_snd, if_neg h]; rfl
  exact ⟨h1, h2, load_traced_fst env pa plat fs, by rw [h2]⟩

end Alacritty
